import Mathlib

/-!
Verification of the Goofy test-session controller (the factory-test operator
console).  The definitions below are a shallow embedding of the JavaScript
source: each `def` mirrors one function or data structure of the source file,
with DOM/WebSocket side effects made explicit as an `Effect` output list and
the controller singleton made explicit as a `GoofyState` record.
-/

set_option maxRecDepth 1000000

namespace CrosFactory

/-! ## SHA-1 (mirrors goog.crypt.Sha1 + goog.crypt.byteArrayToHex)

The engineering-mode gate hashes the entered password with SHA-1 and compares
the lowercase hex digest against the stored hash.  The library routines are
reproduced here so that the gate can be evaluated on concrete inputs. -/

namespace Sha1

def mask32 : Nat := 4294967296

/-- 32-bit left rotation. -/
def rotl (x n : Nat) : Nat := ((x <<< n) ||| (x >>> (32 - n))) % mask32

/-- The byte stream hashed for a string input: the source feeds
`charCodeAt` values (8-bit characters) into the hasher. -/
def stringBytes (s : String) : List Nat :=
  s.data.map (fun c => c.toNat &&& 255)

/-- SHA-1 padding: 0x80, zeros to 56 mod 64, then the 64-bit big-endian
bit length. -/
def padMessage (msg : List Nat) : List Nat :=
  let len := msg.length
  let bitLen := len * 8
  let padZeros := (55 + 64 - (len % 64)) % 64
  msg ++ [128] ++ List.replicate padZeros 0 ++
    [(bitLen >>> 56) % 256, (bitLen >>> 48) % 256, (bitLen >>> 40) % 256,
     (bitLen >>> 32) % 256, (bitLen >>> 24) % 256, (bitLen >>> 16) % 256,
     (bitLen >>> 8) % 256, bitLen % 256]

/-- Big-endian bytes to 32-bit words. -/
def bytesToWords : List Nat → List Nat
  | a :: b :: c :: d :: rest =>
    (a * 16777216 + b * 65536 + c * 256 + d) :: bytesToWords rest
  | _ => []

/-- Split a word list into 16-word blocks (the fuel argument bounds the
recursion; it is instantiated with the list length). -/
def splitChunks : Nat → List Nat → List (List Nat)
  | 0, _ => []
  | fuel + 1, ws =>
    if ws.isEmpty then [] else ws.take 16 :: splitChunks fuel (ws.drop 16)

/-- One SHA-1 round.  The accumulator holds the working registers (a,b,c,d,e)
and the message schedule produced so far, most recent word first. -/
def sha1Round (chunk : List Nat)
    (acc : (Nat × Nat × Nat × Nat × Nat) × List Nat) (t : Nat) :
    (Nat × Nat × Nat × Nat × Nat) × List Nat :=
  let a := acc.1.1
  let b := acc.1.2.1
  let c := acc.1.2.2.1
  let d := acc.1.2.2.2.1
  let e := acc.1.2.2.2.2
  let win := acc.2
  let wt :=
    if t < 16 then chunk.getD t 0
    else rotl ((win.getD 2 0) ^^^ (win.getD 7 0) ^^^
               (win.getD 13 0) ^^^ (win.getD 15 0)) 1
  let f :=
    if t < 20 then (b &&& c) ||| ((b ^^^ 4294967295) &&& d)
    else if t < 40 then b ^^^ c ^^^ d
    else if t < 60 then (b &&& c) ||| (b &&& d) ||| (c &&& d)
    else b ^^^ c ^^^ d
  let k :=
    if t < 20 then 1518500249
    else if t < 40 then 1859775393
    else if t < 60 then 2400959708
    else 3395469782
  let temp := (rotl a 5 + f + e + k + wt) % mask32
  ((temp, a, rotl b 30, c, d), wt :: win)

/-- Compress one 16-word chunk into the running 5-word digest. -/
def compressChunk (h : List Nat) (chunk : List Nat) : List Nat :=
  let h0 := h.getD 0 0
  let h1 := h.getD 1 0
  let h2 := h.getD 2 0
  let h3 := h.getD 3 0
  let h4 := h.getD 4 0
  let r := (List.range 80).foldl (sha1Round chunk) ((h0, h1, h2, h3, h4), [])
  [(h0 + r.1.1) % mask32, (h1 + r.1.2.1) % mask32, (h2 + r.1.2.2.1) % mask32,
   (h3 + r.1.2.2.2.1) % mask32, (h4 + r.1.2.2.2.2) % mask32]

def initH : List Nat := [1732584193, 4023233417, 2562383102, 271733878, 3285377520]

def wordBytes (x : Nat) : List Nat :=
  [(x >>> 24) % 256, (x >>> 16) % 256, (x >>> 8) % 256, x % 256]

def sha1Bytes (msg : List Nat) : List Nat :=
  let words := bytesToWords (padMessage msg)
  let h := (splitChunks words.length words).foldl compressChunk initH
  (h.map wordBytes).flatten

def hexChar (n : Nat) : Char :=
  if n < 10 then Char.ofNat (48 + n) else Char.ofNat (87 + n)

def byteHex (b : Nat) : String := String.mk [hexChar (b / 16), hexChar (b % 16)]

/-- Lowercase hex digest of a byte list (goog.crypt.byteArrayToHex). -/
def toHex (bytes : List Nat) : String := String.join (bytes.map byteHex)

/-- SHA-1 lowercase hex digest of a string, as computed by the password
prompt (goog.crypt.Sha1 update + digest + byteArrayToHex). -/
def sha1Hex (s : String) : String := toHex (sha1Bytes (stringBytes s))

end Sha1

/-! ## Data model -/

/-- A JSON-ish value appearing in outbound event properties. -/
inductive JsVal where
  | null
  | str (s : String)
  | num (n : Int)
  | strList (xs : List String)
deriving DecidableEq, Repr

/-- The mutable per-test state, as carried by state_change events and stored
in pathTestMap entries (field `state`). -/
structure TestState where
  status : String
  error_msg : Option String := none
  count : Nat := 0
deriving DecidableEq, Repr

/-- The sandbox iframe hosting one test invocation.  `sandboxId` stands for
the DOM identity of the iframe; `body` is the sequence of markup chunks
written into its document. -/
structure Frame where
  sandboxId : Nat
  body : List String := []
deriving DecidableEq, Repr

/-- UI for a single test invocation (cros.factory.Invocation).  `iframe` is
`none` once the invocation has been disposed. -/
structure Invocation where
  path : String
  uuid : String
  iframe : Option Frame
deriving DecidableEq, Repr

/-- Externally visible side effects of the controller (DOM mutations,
WebSocket sends, dialogs, logging), in the order they are performed. -/
inductive Effect where
  | sendWs (type : String) (props : List (String × JsVal))
  | reload
  | alertMsg (msg : String)
  | logInfo (msg : String)
  | logWarning (msg : String)
  | logConsole (msg : String)
  | createSandbox (id : Nat)
  | removeSandbox (id : Nat)
  | clearSandbox (id : Nat)
  | writeSandbox (id : Nat) (html : String)
  | evalSandbox (id : Nat) (js : String)
  | callSandbox (id : Nat) (name : String)
  | revealNode (path : String)
  | collapseLater (path : String)
  | setBodyClass (cls : String) (enabled : Bool)
  | disposeDialog (id : Nat)
  | createDialog (id : Nat)
  | openPasswordPrompt (id : Nat)
  | refreshSystemInfoPane
deriving DecidableEq, Repr

/-- The controller singleton (cros.factory.Goofy).  JavaScript object maps
become association lists; a key bound to `none` models a key explicitly set
to null (as `Invocation.dispose` does).  `nextId` supplies the identities of
freshly created DOM objects (iframes, dialogs). -/
structure GoofyState where
  uuid : Option String := none
  wsOpen : Bool := false
  invocations : List (String × Option Invocation) := []
  pathNodes : List (String × List String) := []
  pathTests : List (String × TestState) := []
  engineeringMode : Bool := false
  engineeringPasswordSHA1 : Option String := some "?"
  engineeringModeDialog : Option Nat := none
  dialog : Option Nat := none
  shutdownDialog : Option Nat := none
  liveCountdowns : List Nat := []
  nextId : Nat := 0
deriving DecidableEq, Repr

/-- JavaScript truthiness of a nullable string (null and the empty string are
falsy). -/
def strTruthy : Option String → Bool
  | none => false
  | some s => s != ""

/-- goog.string.startsWith: whether `s` begins with `pre`. -/
def strStartsWith (s pre : String) : Bool :=
  pre.data.isPrefixOf s.data

/-- JS String.prototype.toLowerCase on one (ASCII) character. -/
def charToLower (c : Char) : Char :=
  if 65 ≤ c.toNat && c.toNat ≤ 90 then Char.ofNat (c.toNat + 32) else c

/-- JS String.prototype.toLowerCase (the statuses are ASCII). -/
def strToLower (s : String) : String := String.mk (s.data.map charToLower)

/-- JS object property read `m[k]`: the value at the first binding of the
key, if any. -/
def lookupKey {α : Type} (m : List (String × α)) (k : String) : Option α :=
  match m with
  | [] => none
  | kv :: tl => if kv.1 = k then some kv.2 else lookupKey tl k

/-- JS object property assignment `m[k] = v`: replace the binding if the key
is present, otherwise add it. -/
def setKey {α : Type} (m : List (String × α)) (k : String) (v : α) :
    List (String × α) :=
  if (lookupKey m k).isSome then
    m.map (fun kv => if kv.1 = k then (k, v) else kv)
  else m ++ [(k, v)]

def jsOfOptStr : Option String → JsVal
  | none => JsVal.null
  | some s => JsVal.str s

/-- Whether automatic collapse of completed test items is enabled
(cros.factory.AUTO_COLLAPSE; false in the source). -/
def AUTO_COLLAPSE : Bool := false

/-! ## Transport layer -/

/-- Goofy.prototype.sendEvent: serialize the properties with the type tag and
send on the WebSocket. -/
def sendEvent (type : String) (props : List (String × JsVal)) : Effect :=
  Effect.sendWs type props

/-- Goofy.prototype.keepAlive: send a keepalive carrying the recorded session
id, but only when the WebSocket is open. -/
def keepAlive (st : GoofyState) : List Effect :=
  if st.wsOpen then [sendEvent "goofy:keepalive" [("uuid", jsOfOptStr st.uuid)]]
  else []

/-! ## Invocation manager -/

/-- Goofy.prototype.getOrCreateInvocation: if the run id is already a key of
the invocation map (even one bound to null by a prior dispose), return the
stored value and create nothing; otherwise create a new Invocation with a
blank iframe appended to goofy-main. -/
def getOrCreateInvocation (path invocationUuid : String) (st : GoofyState) :
    (GoofyState × List Effect) × Option Invocation :=
  match lookupKey st.invocations invocationUuid with
  | some v => ((st, []), v)
  | none =>
    let frame : Frame := { sandboxId := st.nextId }
    let inv : Invocation := { path := path, uuid := invocationUuid, iframe := some frame }
    (({ st with
          nextId := st.nextId + 1,
          invocations := setKey st.invocations invocationUuid (some inv) },
      [Effect.logInfo ("Creating UI for test " ++ path ++ " (invocation " ++ invocationUuid),
       Effect.createSandbox frame.sandboxId]),
     some inv)

/-- Invocation.prototype.dispose: if the iframe is still live, remove it from
the document, null out the invocation-map entry, and null the iframe (a
second dispose is a no-op). -/
def Invocation.dispose (inv : Invocation) (st : GoofyState) :
    GoofyState × List Effect :=
  match inv.iframe with
  | some f =>
    ({ st with invocations := setKey st.invocations inv.uuid none },
     [Effect.removeSandbox f.sandboxId])
  | none => (st, [])

/-! ## Engineering-mode gate -/

/-- Goofy.prototype.setEngineeringMode. -/
def setEngineeringMode (enabled : Bool) (st : GoofyState) :
    GoofyState × List Effect :=
  ({ st with engineeringMode := enabled },
   [Effect.setBodyClass "goofy-engineering-mode" enabled])

/-- The goog.ui.Prompt callback installed by promptEngineeringPassword:
cancelled (null) or empty input does nothing; otherwise the SHA-1 hex digest
of the entered text is compared with the stored hash — on a match the gate
unlocks, otherwise one alert is shown and nothing changes. -/
def engineeringPromptCallback (st : GoofyState) (text : Option String) :
    GoofyState × List Effect :=
  match text with
  | none => (st, [])
  | some t =>
    if t = "" then (st, [])
    else
      let digest := Sha1.sha1Hex t
      if some digest = st.engineeringPasswordSHA1 then setEngineeringMode true st
      else (st, [Effect.alertMsg "Incorrect password."])

/-- Goofy.prototype.promptEngineeringPassword: dispose any previous prompt
dialog; with no configured hash, alert; when already in engineering mode,
leave it; otherwise open the password prompt (whose callback is
engineeringPromptCallback). -/
def promptEngineeringPassword (st : GoofyState) : GoofyState × List Effect :=
  let (st1, effs1) :=
    match st.engineeringModeDialog with
    | some d => ({ st with engineeringModeDialog := none }, [Effect.disposeDialog d])
    | none => (st, [])
  if !(strTruthy st1.engineeringPasswordSHA1) then
    (st1, effs1 ++ [Effect.alertMsg "No password has been set."])
  else if st1.engineeringMode then
    let (st2, effs2) := setEngineeringMode false st1
    (st2, effs1 ++ effs2)
  else
    let d := st1.nextId
    ({ st1 with nextId := d + 1, engineeringModeDialog := some d },
     effs1 ++ [Effect.openPasswordPrompt d])

/-! ## Tree model -/

/-- goog.dom.classes.addRemove on an element's class list: remove every
occurrence of each class in `toRemove`, then append `toAdd` unless already
present. -/
def classesAddRemove (classes toRemove : List String) (toAdd : String) :
    List String :=
  let removed := classes.filter (fun c => !toRemove.contains c)
  if removed.contains toAdd then removed else removed ++ [toAdd]

/-- Goofy.prototype.setTestState: look the node up by path (warn and drop the
event if unknown); store the new TestState in the test entry; swap the
node element's goofy-status-* class for the one matching the new status;
reveal the node when it becomes ACTIVE (the AUTO_COLLAPSE branch is compiled
out, the flag being false in the source). -/
def setTestState (path : String) (state : TestState) (st : GoofyState) :
    GoofyState × List Effect :=
  match lookupKey st.pathNodes path with
  | none => (st, [Effect.logWarning ("No node found for test path " ++ path)])
  | some classes =>
    let toRemove := classes.filter
        (fun cls => strStartsWith cls "goofy-status-" && cls != "")
    let newClasses := classesAddRemove classes toRemove
        ("goofy-status-" ++ strToLower state.status)
    let st1 := { st with
      pathNodes := setKey st.pathNodes path newClasses,
      pathTests := setKey st.pathTests path state }
    if state.status = "ACTIVE" then (st1, [Effect.revealNode path])
    else if AUTO_COLLAPSE then (st1, [Effect.collapseLater path])
    else (st1, [])

/-! ## Shutdown countdown controller -/

/-- A pending shutdown event (cros.factory.PendingShutdownEvent).  Times are
absolute seconds; a falsy (absent/zero) `time` makes the event clear-only. -/
structure PendingShutdownEvent where
  delay_secs : ℚ
  time : ℚ
  operation : String := "reboot"
  iteration : Int := 1
  iterations : Int := 1
deriving DecidableEq, Repr

/-- What one countdown tick puts on screen: the progress-bar value (percent),
the integer seconds figure, and the plural suffix written after "second". -/
structure TickDisplay where
  progressValue : ℚ
  secondsLeft : Int
  pluralSuffix : String
deriving DecidableEq, Repr

/-- goog.math.clamp. -/
def clamp (value minValue maxValue : ℚ) : ℚ := min (max value minValue) maxValue

/-- The countdown dialog's 20ms tick handler: recompute the progress fraction
from start time (time - delay_secs) and end time (time), clamp it to [0,1]
for the progress bar (whose scale is 0..100), and recompute the seconds
figure as 1 + floor(max(0, time - now)) with its plural suffix. -/
def tick (shutdownInfo : PendingShutdownEvent) (now : ℚ) : TickDisplay :=
  let startTime := shutdownInfo.time - shutdownInfo.delay_secs
  let endTime := shutdownInfo.time
  let fraction := (now - startTime) / (endTime - startTime)
  let secondsLeft : Int := 1 + Int.floor (max 0 (endTime - now))
  { progressValue := clamp fraction 0 1 * 100,
    secondsLeft := secondsLeft,
    pluralSuffix := if secondsLeft = 1 then "" else "s" }

/-- Goofy.prototype.closeDialog. -/
def closeDialog (st : GoofyState) : GoofyState × List Effect :=
  match st.dialog with
  | some d => ({ st with dialog := none }, [Effect.disposeDialog d])
  | none => (st, [])

/-- Goofy.prototype.setPendingShutdown: always dispose any existing countdown
dialog first; a missing event or falsy target time clears only; otherwise
close any generic dialog and create the new countdown dialog (with its
timer).  `liveCountdowns` tracks every countdown dialog created and not yet
disposed. -/
def setPendingShutdown (shutdownInfo : Option PendingShutdownEvent)
    (st : GoofyState) : GoofyState × List Effect :=
  let (st1, effs1) :=
    match st.shutdownDialog with
    | some d =>
      ({ st with shutdownDialog := none,
                 liveCountdowns := st.liveCountdowns.filter (· ≠ d) },
       [Effect.disposeDialog d])
    | none => (st, [])
  match shutdownInfo with
  | none => (st1, effs1)
  | some info =>
    if info.time = 0 then (st1, effs1)
    else
      let (st2, effs2) := closeDialog st1
      let d := st2.nextId
      ({ st2 with nextId := d + 1, shutdownDialog := some d,
                  liveCountdowns := st2.liveCountdowns ++ [d] },
       effs1 ++ effs2 ++ [Effect.createDialog d])

/-! ## Context menu / command dispatch -/

/-- An entry of the test list (cros.factory.TestListEntry), carrying its
current state as the source stores it on the same record. -/
inductive TestEntry where
  | mk (path : String) (label_en : String) (state : TestState)
       (subtests : List TestEntry)

def TestEntry.path : TestEntry → String
  | .mk p _ _ _ => p

def TestEntry.state : TestEntry → TestState
  | .mk _ _ s _ => s

def TestEntry.subtests : TestEntry → List TestEntry
  | .mk _ _ _ ts => ts

mutual
/-- The leaf tests of a subtree, in traversal order (the leaves counted by
showTestPopup's countLeaves). -/
def TestEntry.leaves : TestEntry → List TestEntry
  | .mk p l s ts => if ts.isEmpty then [.mk p l s ts] else leavesOfList ts

def leavesOfList : List TestEntry → List TestEntry
  | [] => []
  | t :: ts => t.leaves ++ leavesOfList ts
end

/-- countLeaves total (numLeaves). -/
def numLeaves (t : TestEntry) : Nat := t.leaves.length

/-- countLeaves per-status tally (numLeavesByStatus, with 0 for a status
never seen). -/
def numLeavesByStatus (t : TestEntry) (status : String) : Nat :=
  (t.leaves.filter (fun l => l.state.status = status)).length

/-- A context-menu item as built by makeMenuItem: the verb identifying the
action, the count shown in the label, the enabled bit, and the effects of
selecting it. -/
structure MenuItem where
  verb : String
  count : Nat
  enabled : Bool
  onAction : List Effect
deriving DecidableEq, Repr

/-- Goofy.prototype.makeMenuItem (label layout elided): the item is enabled
exactly when the count is nonzero. -/
def makeMenuItem (verb : String) (count : Nat) (onAction : List Effect) :
    MenuItem :=
  { verb := verb, count := count, enabled := count != 0, onAction := onAction }

/-- The action items of the context menu built by showTestPopup for the
subtree rooted at `path` (separators and the disabled-out log item elided):
run/restart-all; for parents additionally restart-not-passed and
run-untested; and stop-active, whose handler sends a bare goofy:stop with no
properties. -/
def showTestPopupItems (path : String) (test : TestEntry) : List MenuItem :=
  let nLeaves := numLeaves test
  let restartOrRun :=
    if numLeavesByStatus test "UNTESTED" = nLeaves then "Run" else "Restart"
  [makeMenuItem restartOrRun nLeaves
     [sendEvent "goofy:restart_tests" [("path", JsVal.str path)]]]
  ++ (if test.subtests.length != 0 then
        [makeMenuItem "Restart"
           (numLeavesByStatus test "UNTESTED" + numLeavesByStatus test "ACTIVE" +
            numLeavesByStatus test "FAILED")
           [sendEvent "goofy:run_tests_with_status"
              [("status", JsVal.strList ["UNTESTED", "ACTIVE", "FAILED"]),
               ("path", JsVal.str path)]],
         makeMenuItem "Run"
           (numLeavesByStatus test "UNTESTED" + numLeavesByStatus test "ACTIVE")
           [sendEvent "goofy:auto_run" [("path", JsVal.str path)]]]
      else [])
  ++ [makeMenuItem "Stop" (numLeavesByStatus test "ACTIVE")
        [sendEvent "goofy:stop" []]]

/-! ## Event dispatcher -/

/-- An inbound backend event, with one optional field per property the
dispatcher reads.  A `none` field models an absent (undefined) property. -/
structure BackendMessage where
  type : String
  uuid : Option String := none
  message : Option String := none
  path : Option String := none
  state : Option TestState := none
  test : Option String := none
  invocation : Option String := none
  html : Option String := none
  append : Bool := false
  js : Option String := none
  name : Option String := none
  shutdown : Option PendingShutdownEvent := none
deriving DecidableEq, Repr

/-- Goofy.prototype.handleBackendEvent: dispatch on the event type string;
unknown types fall through with no effect. -/
def handleBackendEvent (message : BackendMessage) (st : GoofyState) :
    GoofyState × List Effect :=
  if message.type = "goofy:hello" then
    if strTruthy st.uuid && message.uuid != st.uuid then
      (st, [Effect.reload])
    else
      let st1 := { st with uuid := message.uuid }
      (st1, keepAlive st1)
  else if message.type = "goofy:log" then
    (st, [Effect.logConsole (message.message.getD "")])
  else if message.type = "goofy:state_change" then
    match message.path, message.state with
    | some p, some s => setTestState p s st
    | p, _ => (st, [Effect.logWarning ("No node found for test path " ++ p.getD "")])
  else if message.type = "goofy:set_html" then
    let r := getOrCreateInvocation (message.test.getD "") (message.invocation.getD "") st
    match r.2 with
    | some inv =>
      match inv.iframe with
      | some f =>
        let clearEffs :=
          if !message.append then [Effect.clearSandbox f.sandboxId] else []
        let newBody :=
          (if message.append then f.body else []) ++ [message.html.getD ""]
        let inv1 := { inv with iframe := some { f with body := newBody } }
        ({ r.1.1 with invocations := setKey r.1.1.invocations inv.uuid (some inv1) },
         r.1.2 ++ clearEffs ++ [Effect.writeSandbox f.sandboxId (message.html.getD "")])
      | none => (r.1.1, r.1.2)
    | none => (r.1.1, r.1.2)
  else if message.type = "goofy:run_js" then
    let r := getOrCreateInvocation (message.test.getD "") (message.invocation.getD "") st
    match r.2 with
    | some inv =>
      match inv.iframe with
      | some f => (r.1.1, r.1.2 ++ [Effect.evalSandbox f.sandboxId (message.js.getD "")])
      | none => (r.1.1, r.1.2)
    | none => (r.1.1, r.1.2)
  else if message.type = "goofy:call_js_function" then
    let r := getOrCreateInvocation (message.test.getD "") (message.invocation.getD "") st
    match r.2 with
    | some inv =>
      match inv.iframe with
      | some f => (r.1.1, r.1.2 ++ [Effect.callSandbox f.sandboxId (message.name.getD "")])
      | none => (r.1.1, r.1.2)
    | none => (r.1.1, r.1.2)
  else if message.type = "goofy:destroy_test" then
    match lookupKey st.invocations (message.invocation.getD "") with
    | some (some inv) => inv.dispose st
    | _ => (st, [])
  else if message.type = "goofy:system_info" then
    (st, [Effect.refreshSystemInfoPane])
  else if message.type = "goofy:pending_shutdown" then
    setPendingShutdown message.shutdown st
  else (st, [])

/-- A hello event carrying the backend's session id. -/
def helloMsg (u : String) : BackendMessage :=
  { type := "goofy:hello", uuid := some u }

/-- A state_change event for one test path. -/
def stateChangeMsg (p : String) (s : TestState) : BackendMessage :=
  { type := "goofy:state_change", path := some p, state := some s }

/-- A destroy_test event for one run id. -/
def destroyTestMsg (u : String) : BackendMessage :=
  { type := "goofy:destroy_test", invocation := some u }

/-! ## Observers and concrete fixtures used by the statements below -/

/-- The properties carried by an outbound WebSocket event effect. -/
def effectProps : Effect → List (String × JsVal)
  | .sendWs _ props => props
  | _ => []

/-- Whether an effect is an alert dialog. -/
def isAlert : Effect → Bool
  | .alertMsg _ => true
  | _ => false

/-- Whether an effect creates a countdown dialog. -/
def isCreateDialog : Effect → Bool
  | .createDialog _ => true
  | _ => false

/-- A leaf test entry with the given path and status. -/
def leafEntry (path status : String) : TestEntry :=
  .mk path path { status := status } []

/-- A concrete subtree whose six leaves have statuses UNTESTED, UNTESTED,
FAILED, PASSED, PASSED, PASSED (the example of the context-menu claims). -/
def exampleTree : TestEntry :=
  .mk "SMT" "SMT" { status := "UNTESTED" }
    [leafEntry "SMT.a" "UNTESTED", leafEntry "SMT.b" "UNTESTED",
     leafEntry "SMT.c" "FAILED", leafEntry "SMT.d" "PASSED",
     leafEntry "SMT.e" "PASSED", leafEntry "SMT.f" "PASSED"]

/-- A locked controller whose configured engineering password is "secret". -/
def lockedState : GoofyState :=
  { engineeringPasswordSHA1 := some (Sha1.sha1Hex "secret") }

/-- A controller with one live invocation "u1" for test path SMT.LED, as in
the end-to-end destroy_test requirement. -/
def endToEndInit : GoofyState :=
  { uuid := some "sess-1",
    wsOpen := true,
    invocations := [("u1", some { path := "SMT.LED", uuid := "u1",
                                  iframe := some { sandboxId := 0 } })],
    pathNodes := [("SMT", ["goofy-test"]), ("SMT.LED", ["goofy-test"])],
    pathTests := [("SMT", { status := "UNTESTED" }),
                  ("SMT.LED", { status := "UNTESTED" })],
    nextId := 1 }

/-- A controller state in which run id u1 has already been disposed: the key
remains, bound to null. -/
def disposedState : GoofyState :=
  { endToEndInit with invocations := [("u1", none)] }

/-- A controller state currently showing one shutdown countdown dialog. -/
def countdownShownState : GoofyState :=
  { endToEndInit with shutdownDialog := some 7, liveCountdowns := [7], nextId := 8 }

/-- A controller state whose SMT.LED node still carries a stale status
class from an earlier FAILED run. -/
def staleClassState : GoofyState :=
  { endToEndInit with
      pathNodes := [("SMT", ["goofy-test"]),
                    ("SMT.LED", ["goofy-test", "goofy-status-failed"])] }

/-! ## Helper lemmas -/

theorem lookupKey_replace {α : Type} (m : List (String × α)) (k : String) (v : α)
    (h : (lookupKey m k).isSome = true) :
    lookupKey (m.map (fun kv => if kv.1 = k then (k, v) else kv)) k = some v := by
  induction m with
  | nil => simp [lookupKey] at h
  | cons kv tl ih =>
    by_cases hk : kv.1 = k
    · simp [lookupKey, hk]
    · simp only [lookupKey, hk, if_false, List.map_cons] at h ⊢
      simpa [lookupKey, hk] using ih h

theorem lookupKey_append_new {α : Type} (m : List (String × α)) (k : String) (v : α)
    (h : lookupKey m k = none) :
    lookupKey (m ++ [(k, v)]) k = some v := by
  induction m with
  | nil => simp [lookupKey]
  | cons kv tl ih =>
    by_cases hk : kv.1 = k
    · simp [lookupKey, hk] at h
    · simp only [lookupKey, hk, if_false, List.cons_append] at h ⊢
      simpa [lookupKey, hk] using ih h

theorem lookupKey_setKey {α : Type} (m : List (String × α)) (k : String) (v : α) :
    lookupKey (setKey m k v) k = some v := by
  unfold setKey
  by_cases h : (lookupKey m k).isSome = true
  · rw [if_pos h]; exact lookupKey_replace m k v h
  · rw [if_neg h]
    refine lookupKey_append_new m k v ?_
    cases hh : lookupKey m k with
    | none => rfl
    | some w => rw [hh] at h; simp at h

theorem removed_filter_nil (classes : List String) (p : String → Bool) :
    (classes.filter (fun c => !(classes.filter p).contains c)).filter p = [] := by
  rw [List.filter_eq_nil_iff]
  intro c hc hp
  have hmem := (List.mem_filter.mp hc).1
  have hnc := (List.mem_filter.mp hc).2
  have hin : c ∈ classes.filter p := List.mem_filter.mpr ⟨hmem, hp⟩
  simp [hin] at hnc

theorem classesAddRemove_filter (classes : List String) (p : String → Bool)
    (nc : String) (hnc : p nc = true) :
    (classesAddRemove classes (classes.filter p) nc).filter p = [nc] := by
  unfold classesAddRemove
  have h0 := removed_filter_nil classes p
  by_cases hm : (classes.filter (fun c => !(classes.filter p).contains c)).contains nc
  · exfalso
    have hin : nc ∈ (classes.filter (fun c => !(classes.filter p).contains c)).filter p :=
      List.mem_filter.mpr ⟨by simpa using hm, hnc⟩
    rw [h0] at hin
    simp at hin
  · rw [if_neg hm, List.filter_append, h0]
    simp [hnc]

theorem length_filter_mem_two (ts : List TestEntry) (s1 s2 : String)
    (h12 : s1 ≠ s2) :
    (ts.filter (fun l => [s1, s2].contains l.state.status)).length =
      (ts.filter (fun l => l.state.status = s1)).length +
      (ts.filter (fun l => l.state.status = s2)).length := by
  induction ts with
  | nil => simp
  | cons a tl ih =>
    by_cases h1 : a.state.status = s1 <;>
      by_cases h2 : a.state.status = s2 <;>
        simp_all [List.filter_cons] <;> omega

theorem length_filter_mem_three (ts : List TestEntry) (s1 s2 s3 : String)
    (h12 : s1 ≠ s2) (h13 : s1 ≠ s3) (h23 : s2 ≠ s3) :
    (ts.filter (fun l => [s1, s2, s3].contains l.state.status)).length =
      (ts.filter (fun l => l.state.status = s1)).length +
      (ts.filter (fun l => l.state.status = s2)).length +
      (ts.filter (fun l => l.state.status = s3)).length := by
  induction ts with
  | nil => simp
  | cons a tl ih =>
    by_cases h1 : a.state.status = s1 <;>
      by_cases h2 : a.state.status = s2 <;>
        by_cases h3 : a.state.status = s3 <;>
          simp_all [List.filter_cons] <;> omega

/-! ## Claim theorems -/

/-- C3: for an active shutdown countdown with target time T and delay D, a
tick sampled at instant `now` displays progress fraction
clamp((now-(T-D))/D, 0, 1) (scaled by 100 for the progress bar),
seconds-remaining 1 + floor(max(0, T-now)), and an empty plural suffix
exactly when the displayed seconds equal 1. -/
theorem shutdown_tick_display (info : PendingShutdownEvent) (now : ℚ) :
    (tick info now).progressValue =
      clamp ((now - (info.time - info.delay_secs)) / info.delay_secs) 0 1 * 100 ∧
    (tick info now).secondsLeft = 1 + Int.floor (max 0 (info.time - now)) ∧
    ((tick info now).pluralSuffix = "" ↔ (tick info now).secondsLeft = 1) := by
  have hden : info.time - (info.time - info.delay_secs) = info.delay_secs := by
    ring
  refine ⟨?_, rfl, ?_⟩
  · simp only [tick, hden]
  · simp only [tick]
    split
    · rename_i h; simp [h]
    · rename_i h; simp [h]

/-- C7: get-or-create of an Invocation is idempotent per run id: when the run
id is bound to a live Invocation, get-or-create returns it unchanged, with
no new sandbox and no state change, whatever the path argument is. -/
theorem getOrCreateInvocation_idempotent (st : GoofyState)
    (path invocationUuid : String) (inv : Invocation)
    (h : lookupKey st.invocations invocationUuid = some (some inv)) :
    getOrCreateInvocation path invocationUuid st = ((st, []), some inv) := by
  unfold getOrCreateInvocation
  rw [h]

/-- Closes the hypotheses of getOrCreateInvocation_idempotent on the concrete
endToEndInit state: a second get-or-create for run id u1, under a different
path, returns the existing Invocation and changes nothing. -/
theorem getOrCreateInvocation_idempotent_witness :
    getOrCreateInvocation "OTHER.path" "u1" endToEndInit =
      ((endToEndInit, []),
       some { path := "SMT.LED", uuid := "u1", iframe := some { sandboxId := 0 } }) :=
  getOrCreateInvocation_idempotent endToEndInit "OTHER.path" "u1"
    { path := "SMT.LED", uuid := "u1", iframe := some { sandboxId := 0 } }
    (by decide)

/-- C10: disposing an Invocation leaves its run id as a key of the invocation
map bound to null, and against any state where a run id is bound to null,
set_html, run_js and call_js_function events for that run id return null from
get-or-create, create nothing, and have no effect at all. -/
theorem disposed_invocation_noop (st : GoofyState) (path0 u htm code nm : String)
    (f : Frame) :
    lookupKey
        ((Invocation.dispose { path := path0, uuid := u, iframe := some f } st).1).invocations
        u = some none ∧
    ∀ st1 : GoofyState, lookupKey st1.invocations u = some none →
      handleBackendEvent { type := "goofy:set_html", test := some path0,
                           invocation := some u, html := some htm } st1 = (st1, []) ∧
      handleBackendEvent { type := "goofy:run_js", test := some path0,
                           invocation := some u, js := some code } st1 = (st1, []) ∧
      handleBackendEvent { type := "goofy:call_js_function", test := some path0,
                           invocation := some u, name := some nm } st1 = (st1, []) := by
  constructor
  · unfold Invocation.dispose
    exact lookupKey_setKey st.invocations u none
  · intro st1 h1
    refine ⟨?_, ?_, ?_⟩ <;>
      simp +decide [handleBackendEvent, getOrCreateInvocation, h1]

/-- Closes the hypotheses of disposed_invocation_noop on the concrete
disposedState: a set_html event for the disposed run id u1 has no effect. -/
theorem disposed_invocation_noop_witness :
    lookupKey disposedState.invocations "u1" = some none ∧
    handleBackendEvent { type := "goofy:set_html", test := some "SMT.LED",
                         invocation := some "u1", html := some "hi" } disposedState
      = (disposedState, []) :=
  ⟨by decide,
   ((disposed_invocation_noop endToEndInit "SMT.LED" "u1" "hi" "1+1" "setUp"
       { sandboxId := 0 }).2 disposedState (by decide)).1⟩

/-- C1: on a hello event, a recorded session id differing from the event's
one forces a full reload and nothing else; otherwise the controller adopts
the event's session id and immediately sends one keepalive carrying it (the
WebSocket being open, as it is while messages arrive). -/
theorem hello_session_reconciliation (st : GoofyState) (u : String)
    (hws : st.wsOpen = true) :
    (∀ v, st.uuid = some v → v ≠ "" → u ≠ v →
      handleBackendEvent { type := "goofy:hello", uuid := some u } st =
        (st, [Effect.reload])) ∧
    (st.uuid = none ∨ st.uuid = some u →
      handleBackendEvent { type := "goofy:hello", uuid := some u } st =
        ({ st with uuid := some u },
         [Effect.sendWs "goofy:keepalive" [("uuid", JsVal.str u)]])) := by
  constructor
  · intro v hv hne hneu
    simp [handleBackendEvent, strTruthy, hv, hne, hneu]
  · rintro (h | h) <;>
      simp [handleBackendEvent, strTruthy, h, keepAlive, jsOfOptStr, hws,
            sendEvent]

/-- Closes the hypotheses of hello_session_reconciliation on the concrete
endToEndInit state (recorded session id sess-1): a hello with a different
session id reloads, a hello with the same session id re-adopts it and sends
a keepalive. -/
theorem hello_session_reconciliation_witness :
    handleBackendEvent { type := "goofy:hello", uuid := some "sess-2" } endToEndInit =
      (endToEndInit, [Effect.reload]) ∧
    handleBackendEvent { type := "goofy:hello", uuid := some "sess-1" } endToEndInit =
      ({ endToEndInit with uuid := some "sess-1" },
       [Effect.sendWs "goofy:keepalive" [("uuid", JsVal.str "sess-1")]]) :=
  ⟨(hello_session_reconciliation endToEndInit "sess-2" (by decide)).1
     "sess-1" rfl (by decide) (by decide),
   (hello_session_reconciliation endToEndInit "sess-1" (by decide)).2
     (Or.inr rfl)⟩

/-- C9: a destroy_test event for a live run id disposes that Invocation
(nulling its entry and removing its sandbox) and leaves every stored
TestState untouched; in particular, in the end-to-end run on endToEndInit, a
state_change that sets SMT.LED to ACTIVE (revealing the node) followed by a
destroy_test for its invocation u1 leaves status ACTIVE in place. -/
theorem destroy_test_disposes_only (st : GoofyState) (u path0 : String) (f : Frame)
    (hinv : lookupKey st.invocations u =
        some (some { path := path0, uuid := u, iframe := some f })) :
    (handleBackendEvent (destroyTestMsg u) st).1.pathTests = st.pathTests ∧
    lookupKey (handleBackendEvent (destroyTestMsg u) st).1.invocations u
        = some none ∧
    (handleBackendEvent (destroyTestMsg u) st).2
        = [Effect.removeSandbox f.sandboxId] ∧
    ((handleBackendEvent (stateChangeMsg "SMT.LED" { status := "ACTIVE" })
          endToEndInit).2 = [Effect.revealNode "SMT.LED"] ∧
      lookupKey (handleBackendEvent (destroyTestMsg "u1")
          (handleBackendEvent (stateChangeMsg "SMT.LED" { status := "ACTIVE" })
            endToEndInit).1).1.pathTests "SMT.LED"
          = some { status := "ACTIVE" } ∧
      lookupKey (handleBackendEvent (destroyTestMsg "u1")
          (handleBackendEvent (stateChangeMsg "SMT.LED" { status := "ACTIVE" })
            endToEndInit).1).1.invocations "u1" = some none) := by
  refine ⟨?_, ?_, ?_, by decide⟩
  · simp +decide [handleBackendEvent, destroyTestMsg, hinv, Invocation.dispose]
  · simp only [handleBackendEvent, destroyTestMsg]
    simp +decide [hinv, Invocation.dispose]
    exact lookupKey_setKey st.invocations u none
  · simp +decide [handleBackendEvent, destroyTestMsg, hinv, Invocation.dispose]

/-- Closes the hypotheses of destroy_test_disposes_only on the concrete
endToEndInit state. -/
theorem destroy_test_disposes_only_witness :
    (handleBackendEvent (destroyTestMsg "u1") endToEndInit).1.pathTests
        = endToEndInit.pathTests ∧
    lookupKey (handleBackendEvent (destroyTestMsg "u1") endToEndInit).1.invocations
        "u1" = some none :=
  ⟨(destroy_test_disposes_only endToEndInit "u1" "SMT.LED" { sandboxId := 0 }
      (by decide)).1,
   (destroy_test_disposes_only endToEndInit "u1" "SMT.LED" { sandboxId := 0 }
      (by decide)).2.1⟩

/-- C8: under the invariant that the live countdown dialogs are exactly the
one referenced by shutdownDialog, setPendingShutdown preserves the
invariant and leaves at most one live countdown; any previously shown
countdown is disposed first (its disposal is the first effect); and an event
with a falsy target time only clears the existing countdown — it creates no
dialog and changes nothing else. -/
theorem setPendingShutdown_at_most_one (st : GoofyState)
    (info : Option PendingShutdownEvent)
    (hinv : st.liveCountdowns = st.shutdownDialog.toList) :
    (setPendingShutdown info st).1.liveCountdowns =
        (setPendingShutdown info st).1.shutdownDialog.toList ∧
    (setPendingShutdown info st).1.liveCountdowns.length ≤ 1 ∧
    (∀ d, st.shutdownDialog = some d →
        (setPendingShutdown info st).2.head? = some (Effect.disposeDialog d)) ∧
    ((info = none ∨ ∃ i, info = some i ∧ i.time = 0) →
        (setPendingShutdown info st).1 =
          { st with shutdownDialog := none, liveCountdowns := [] } ∧
        (setPendingShutdown info st).2.filter isCreateDialog = []) := by
  obtain ⟨uu, ws, invs, pn, pt, em, eph, emd, dlg, sd, lc, nid⟩ := st
  simp only [Option.toList] at hinv
  cases sd with
  | none =>
    simp only at hinv
    subst hinv
    cases info with
    | none => simp [setPendingShutdown, isCreateDialog]
    | some i =>
      by_cases ht : i.time = 0 <;>
        cases dlg <;>
          simp [setPendingShutdown, closeDialog, ht, isCreateDialog,
                Option.toList]
  | some d0 =>
    simp only at hinv
    subst hinv
    cases info with
    | none => simp [setPendingShutdown, isCreateDialog]
    | some i =>
      by_cases ht : i.time = 0 <;>
        cases dlg <;>
          simp [setPendingShutdown, closeDialog, ht, isCreateDialog,
                Option.toList]

/-- Closes the hypotheses of setPendingShutdown_at_most_one on a concrete
state showing one countdown dialog: a pending-shutdown event with no time
disposes it and creates nothing. -/
theorem setPendingShutdown_at_most_one_witness :
    (setPendingShutdown none countdownShownState).1 =
      { countdownShownState with shutdownDialog := none, liveCountdowns := [] } ∧
    (setPendingShutdown none countdownShownState).2.filter isCreateDialog = [] :=
  (setPendingShutdown_at_most_one countdownShownState none (by decide)).2.2.2
    (Or.inl rfl)

/-- C2: for a path present in the tree model, processing a state_change
event stores exactly the event's state object for that path, and the node
element ends up carrying exactly the goofy-status-* class of the new status,
every previous goofy-status-* class having been removed. -/
theorem state_change_sets_state_and_class (st : GoofyState) (path : String)
    (state : TestState) (classes : List String)
    (hnode : lookupKey st.pathNodes path = some classes)
    (hstatus : state.status = "UNTESTED" ∨ state.status = "ACTIVE" ∨
               state.status = "PASSED" ∨ state.status = "FAILED") :
    lookupKey (setTestState path state st).1.pathTests path = some state ∧
    ∃ cs, lookupKey (setTestState path state st).1.pathNodes path = some cs ∧
      cs.filter (fun cls => strStartsWith cls "goofy-status-" && cls != "") =
        ["goofy-status-" ++ strToLower state.status] := by
  have hp : (fun cls => strStartsWith cls "goofy-status-" && cls != "")
      ("goofy-status-" ++ strToLower state.status) = true := by
    rcases hstatus with h | h | h | h <;> rw [h] <;> decide
  constructor
  · unfold setTestState
    rw [hnode]
    by_cases hact : state.status = "ACTIVE" <;>
      simp [hact, AUTO_COLLAPSE, lookupKey_setKey]
  · refine ⟨classesAddRemove classes
        (classes.filter (fun cls => strStartsWith cls "goofy-status-" && cls != ""))
        ("goofy-status-" ++ strToLower state.status), ?_,
      classesAddRemove_filter classes _ _ hp⟩
    unfold setTestState
    rw [hnode]
    by_cases hact : state.status = "ACTIVE" <;>
      simp [hact, AUTO_COLLAPSE, lookupKey_setKey]

/-- Closes the hypotheses of state_change_sets_state_and_class on the
concrete staleClassState: a PASSED state_change for SMT.LED replaces the
stored state and swaps the stale goofy-status-failed class for
goofy-status-passed. -/
theorem state_change_sets_state_and_class_witness :
    lookupKey (setTestState "SMT.LED" { status := "PASSED" } staleClassState).1.pathTests
        "SMT.LED" = some { status := "PASSED" } ∧
    ∃ cs, lookupKey (setTestState "SMT.LED" { status := "PASSED" }
          staleClassState).1.pathNodes "SMT.LED" = some cs ∧
      cs.filter (fun cls => strStartsWith cls "goofy-status-" && cls != "") =
        ["goofy-status-" ++ strToLower "PASSED"] :=
  state_change_sets_state_and_class staleClassState "SMT.LED"
    { status := "PASSED" } ["goofy-test", "goofy-status-failed"]
    (by decide) (Or.inr (Or.inr (Or.inl rfl)))

/-- C5: the context menu computes its counts over the subtree's leaf tests
only — restart-not-passed over UNTESTED+ACTIVE+FAILED leaves, run-untested
over UNTESTED+ACTIVE leaves, stop over ACTIVE leaves — every item is enabled
exactly when its count is nonzero, and on the concrete six-leaf example tree
(UNTESTED:2, FAILED:1, PASSED:3) the counts are 6, 3, 2 and 0, the stop item
being the disabled one. -/
theorem context_menu_counts (path : String) (test : TestEntry)
    (hsub : test.subtests ≠ []) :
    ((showTestPopupItems path test).map (fun i => (i.verb, i.count)))
      = [(if numLeavesByStatus test "UNTESTED" = numLeaves test then "Run"
          else "Restart", numLeaves test),
         ("Restart", (test.leaves.filter (fun l =>
            ["UNTESTED", "ACTIVE", "FAILED"].contains l.state.status)).length),
         ("Run", (test.leaves.filter (fun l =>
            ["UNTESTED", "ACTIVE"].contains l.state.status)).length),
         ("Stop", (test.leaves.filter (fun l =>
            l.state.status = "ACTIVE")).length)] ∧
    (∀ item ∈ showTestPopupItems path test, item.enabled = (item.count != 0)) ∧
    ((showTestPopupItems "SMT" exampleTree).map (fun i => (i.count, i.enabled))
      = [(6, true), (3, true), (2, true), (0, false)]) := by
  have hlen : (test.subtests.length != 0) = true := by
    simp [List.length_eq_zero]
    intro h
    exact hsub h
  have h3 := length_filter_mem_three test.leaves "UNTESTED" "ACTIVE" "FAILED"
    (by decide) (by decide) (by decide)
  have h2 := length_filter_mem_two test.leaves "UNTESTED" "ACTIVE" (by decide)
  refine ⟨?_, ?_, by decide⟩
  · simp [showTestPopupItems, makeMenuItem, numLeavesByStatus, hlen, sendEvent]
    simp at h3 h2
    exact ⟨h3.symm, h2.symm⟩
  · intro item hitem
    simp only [showTestPopupItems, hlen, if_true, List.mem_append,
               List.mem_cons, List.mem_singleton, List.not_mem_nil,
               or_false, false_or] at hitem
    rcases hitem with (h | h | h) | h <;> subst h <;> rfl

/-- Closes the hypotheses of context_menu_counts on the concrete example
tree with leaf statuses UNTESTED:2, FAILED:1, PASSED:3. -/
theorem context_menu_counts_witness :
    (showTestPopupItems "SMT" exampleTree).map (fun i => (i.count, i.enabled))
      = [(6, true), (3, true), (2, true), (0, false)] :=
  (context_menu_counts "SMT" exampleTree
    (by simp [exampleTree, TestEntry.subtests])).2.2

/-- C6 counterexample: on the concrete example tree, not every context-menu
action sends an event carrying the clicked subtree's root path — the
stop-active item sends a bare goofy:stop event with no properties at all. -/
theorem context_menu_stop_no_path :
    ((showTestPopupItems "SMT" exampleTree).map MenuItem.onAction).getLast? =
        some [Effect.sendWs "goofy:stop" []] ∧
    ¬ (∀ item ∈ showTestPopupItems "SMT" exampleTree, ∀ e ∈ item.onAction,
        ("path", JsVal.str "SMT") ∈ effectProps e) := by
  constructor
  · decide
  · decide

/-- C6 (amended): every context-menu action sends exactly one outbound
event; run/restart-all, restart-not-passed and run-untested carry the
clicked subtree's root path, restart-not-passed additionally carries the
filtering status set, but stop-active sends a goofy:stop event with no
payload (it stops all tests, not just the subtree). -/
theorem context_menu_action_events (path : String) (test : TestEntry)
    (hsub : test.subtests ≠ []) :
    ((showTestPopupItems path test).map MenuItem.onAction)
      = [[Effect.sendWs "goofy:restart_tests" [("path", JsVal.str path)]],
         [Effect.sendWs "goofy:run_tests_with_status"
            [("status", JsVal.strList ["UNTESTED", "ACTIVE", "FAILED"]),
             ("path", JsVal.str path)]],
         [Effect.sendWs "goofy:auto_run" [("path", JsVal.str path)]],
         [Effect.sendWs "goofy:stop" []]] := by
  have hlen : (test.subtests.length != 0) = true := by
    simp [List.length_eq_zero]
    intro h
    exact hsub h
  simp [showTestPopupItems, makeMenuItem, sendEvent, hlen]

/-- Closes the hypotheses of context_menu_action_events on the concrete
example tree. -/
theorem context_menu_action_events_witness :
    ((showTestPopupItems "SMT" exampleTree).map MenuItem.onAction)
      = [[Effect.sendWs "goofy:restart_tests" [("path", JsVal.str "SMT")]],
         [Effect.sendWs "goofy:run_tests_with_status"
            [("status", JsVal.strList ["UNTESTED", "ACTIVE", "FAILED"]),
             ("path", JsVal.str "SMT")]],
         [Effect.sendWs "goofy:auto_run" [("path", JsVal.str "SMT")]],
         [Effect.sendWs "goofy:stop" []]] :=
  context_menu_action_events "SMT" exampleTree
    (by simp [exampleTree, TestEntry.subtests])

/-- C4 counterexample: with the stored hash configured for "secret", the
empty entered text hashes to something else, yet the prompt callback leaves
the gate locked while producing zero alerts — not exactly one. -/
theorem engineering_gate_empty_counterexample :
    Sha1.sha1Hex "" ≠ Sha1.sha1Hex "secret" ∧
    (engineeringPromptCallback lockedState (some "")).1.engineeringMode = false ∧
    ((engineeringPromptCallback lockedState (some "")).2.filter isAlert).length
        = 0 := by
  refine ⟨by decide, by decide, by decide⟩

/-- C4 (amended): in the engineering-mode password prompt, nonempty entered
text whose SHA-1 hex digest equals the stored hash unlocks the gate with no
alert; nonempty text with any other digest leaves the state unchanged
(locked) and produces exactly one alert; empty input is ignored by the
callback before hashing, so it produces no alert. -/
theorem engineering_gate (st : GoofyState) (t : String) (ht : t ≠ "") :
    (st.engineeringPasswordSHA1 = some (Sha1.sha1Hex t) →
      (engineeringPromptCallback st (some t)).1.engineeringMode = true ∧
      (engineeringPromptCallback st (some t)).2.filter isAlert = []) ∧
    (st.engineeringPasswordSHA1 ≠ some (Sha1.sha1Hex t) →
      (engineeringPromptCallback st (some t)).1 = st ∧
      (engineeringPromptCallback st (some t)).2
        = [Effect.alertMsg "Incorrect password."]) := by
  constructor
  · intro hmatch
    simp [engineeringPromptCallback, ht, hmatch, setEngineeringMode, isAlert]
  · intro hmismatch
    have hcond : ¬ (some (Sha1.sha1Hex t) = st.engineeringPasswordSHA1) :=
      fun h => hmismatch h.symm
    simp [engineeringPromptCallback, ht, hcond]

/-- Closes the hypotheses of engineering_gate on the concrete lockedState
(stored hash = SHA-1 of "secret"): entering "secret" unlocks with no alert.
-/
theorem engineering_gate_witness :
    (engineeringPromptCallback lockedState (some "secret")).1.engineeringMode
        = true ∧
    (engineeringPromptCallback lockedState (some "secret")).2.filter isAlert
        = [] :=
  (engineering_gate lockedState "secret" (by decide)).1 rfl

end CrosFactory

example : CrosFactory.Sha1.sha1Hex "" = "da39a3ee5e6b4b0d3255bfef95601890afd80709" := by decide
example : CrosFactory.Sha1.sha1Hex "abc" = "a9993e364706816aba3e25717850c26c9cd0d89d" := by decide
